import Mathlib

/-!
Shallow embedding of the ai-alpha-scanner backend core
(`backend/app/services/project_service.py`, `backend/app/collectors/base.py`,
`backend/app/scheduler.py`, `backend/app/main.py`, `backend/app/models/`)
and proofs about it.  Machine integers are `Int`, floats are exact `ℚ`,
dict slots are `Option` fields (with Python `None`-in-slot distinguished
where it matters), fallible code returns `Except`.
-/

/-- A Python string slot value: either the `None` object or an actual
`str`.  `dict.get(k, default)` returns `None` (not the default) when the
key is present holding `None`, and `None.lower()` raises
`AttributeError`, so this distinction matters to the persistence layer. -/
inductive PyStr where
  | pyNone
  | str (s : String)
deriving DecidableEq

/-- Exceptions the embedded code can raise. -/
inductive PyErr where
  | attributeError
  | multipleResultsFound
deriving DecidableEq

/-- Python truthiness of an optional string: `None` and `""` are falsy. -/
def truthy : Option String → Bool
  | none => false
  | some s => !(s == "")

/-- Python `pat in hay` substring test. -/
def strContains (hay pat : String) : Bool :=
  decide (pat.toList <:+: hay.toList)

/-- Python `str.lower()` (ASCII case mapping, as in the data handled). -/
def lowerString (s : String) : String :=
  (s.toList.map Char.toLower).asString

/-- Python `a or b` on two optional strings (first one wins when truthy). -/
def pyOr (a b : Option String) : Option String :=
  if truthy a then a else b

/-- The `ProjectSource` enum (`models/project.py`). -/
inductive ProjectSource where
  | github
  | twitter
  | galxe
  | layer3
  | zealy
  | manual
deriving DecidableEq

/-- The `.value` string tag of a `ProjectSource`. -/
def ProjectSource.value : ProjectSource → String
  | .github => "github"
  | .twitter => "twitter"
  | .galxe => "galxe"
  | .layer3 => "layer3"
  | .zealy => "zealy"
  | .manual => "manual"

/-- The `ProjectCategory` enum (`models/project.py`). -/
inductive ProjectCategory where
  | l1
  | l2
  | defi
  | infrastructure
  | tooling
  | gaming
  | nft
  | social
  | ai
  | other
deriving DecidableEq

/-- The `ProjectStatus` enum (`models/project.py`). -/
inductive ProjectStatus where
  | new
  | analyzed
  | archived
  | rejected
deriving DecidableEq

/-- A normalized intermediate record as produced by a collector: one
Python dict.  `none` in an `Option` field models an absent key.  The
`name` slot additionally distinguishes a present `None` value
(`PyStr.pyNone`) — the one malformation the persistence code can hit —
while the remaining fields are taken well-typed. -/
structure RecordData where
  name : Option PyStr := none
  description : Option String := none
  github_topics : List String := []
  github_url : Option String := none
  github_org : Option String := none
  github_stars : Option Int := none
  github_forks : Option Int := none
  github_commits_30d : Option Int := none
  github_contributors : Option Int := none
  github_created_at : Option String := none
  github_language : Option String := none
  source_url : Option String := none
  twitter_url : Option String := none
  discord_url : Option String := none
  website_url : Option String := none
  early_signals : List String := []
deriving DecidableEq

/-- One step of `re.sub(r'[^a-zA-Z0-9]+', '-', s)`: every maximal run of
non-alphanumeric characters becomes a single dash.  Folding from the
right, a non-alphanumeric character merges with the dash already produced
for the rest of its run. -/
def collapseNonAlnum : List Char → List Char
  | [] => []
  | c :: rest =>
    if c.isAlphanum then c :: collapseNonAlnum rest
    else if (collapseNonAlnum rest).head? = some '-' then collapseNonAlnum rest
    else '-' :: collapseNonAlnum rest

/-- Python `str.strip('-')`: drop leading and trailing dashes. -/
def stripDash (l : List Char) : List Char :=
  (((l.dropWhile (fun c => c = '-')).reverse.dropWhile (fun c => c = '-'))).reverse

/-- The cleaned name inside `ProjectService.generate_slug`:
`re.sub(r'[^a-zA-Z0-9]+', '-', name.lower()).strip('-')`. -/
def cleanName (name : String) : String :=
  (stripDash (collapseNonAlnum (lowerString name).toList)).asString

/-- `ProjectService.generate_slug`. -/
def generate_slug (name source : String) : String :=
  cleanName name ++ "-" ++ source

/-- The call `generate_slug(data.get("name", "unknown"), source.value)`
when the dict slot may hold Python `None`: `None.lower()` raises
`AttributeError`. -/
def generate_slug_py (name : PyStr) (source : String) : Except PyErr String :=
  match name with
  | .pyNone => .error .attributeError
  | .str s => .ok (generate_slug s source)

/-- Word characters of the handle regex: `[a-zA-Z0-9_]`. -/
def isWordChar (c : Char) : Bool := c.isAlphanum || c = '_'

/-- Drop the literal `pat` from the front of `l`, if it starts there. -/
def dropLit (pat : String) (l : List Char) : Option (List Char) :=
  if l.take pat.toList.length = pat.toList then some (l.drop pat.toList.length)
  else none

/-- Left-to-right scan for the first match of the pattern
`(?:twitter\.com|x\.com)/([a-zA-Z0-9_]+)`, returning the captured
group: the maximal word-character run after the matched domain slash. -/
def findHandle : List Char → Option String
  | [] => none
  | c :: rest =>
    match dropLit "twitter.com/" (c :: rest) <|> dropLit "x.com/" (c :: rest) with
    | some tail =>
      let capture := tail.takeWhile isWordChar
      if capture.isEmpty then findHandle rest else some capture.asString
    | none => findHandle rest

/-- `ProjectService._extract_twitter_handle`. -/
def extract_twitter_handle (url : Option String) : Option String :=
  if truthy url then findHandle ((url.getD "").toList) else none

/-- The coercion `(data.get("name") or "")` on a possibly-missing,
possibly-`None` name slot. -/
def pyNameOrEmpty : Option PyStr → String
  | some (.str s) => s
  | _ => ""

/-- The lowercased blob `f"{description} {name} {' '.join(topics)}"`
built by `ProjectService.detect_category`. -/
def categoryText (data : RecordData) : String :=
  let description := lowerString (data.description.getD "")
  let topics := data.github_topics.map lowerString
  let name := lowerString (pyNameOrEmpty data.name)
  description ++ " " ++ name ++ " " ++ String.intercalate " " topics

/-- `any(kw in all_text for kw in kws)`. -/
def anyKeyword (text : String) (kws : List String) : Bool :=
  kws.any (fun kw => strContains text kw)

/-- The ordered keyword rule table of `ProjectService.detect_category`,
in source order. -/
def categoryRules : List (List String × ProjectCategory) :=
  [ (["layer2", "l2", "rollup", "zk-rollup", "optimistic"], .l2),
    (["layer1", "l1", "blockchain", "consensus"], .l1),
    (["defi", "dex", "swap", "lending", "yield", "amm", "liquidity"], .defi),
    (["bridge", "cross-chain", "interoperability", "oracle"], .infrastructure),
    (["sdk", "tool", "library", "framework", "cli", "api"], .tooling),
    (["game", "gaming", "play-to-earn", "metaverse"], .gaming),
    (["nft", "collectible", "marketplace"], .nft),
    (["social", "dao", "governance", "community"], .social),
    ([" ai ", "machine learning", "llm", "gpt", "neural"], .ai) ]

/-- First-match-wins evaluation of an ordered rule table, defaulting to
`other`. -/
def firstMatch (text : String) : List (List String × ProjectCategory) → ProjectCategory
  | [] => .other
  | (kws, c) :: rest => if anyKeyword text kws then c else firstMatch text rest

/-- `ProjectService.detect_category`: the literal chain of
`if any(kw in all_text for kw in [...])` tests from the source. -/
def detect_category (data : RecordData) : ProjectCategory :=
  let all_text := categoryText data
  if anyKeyword all_text ["layer2", "l2", "rollup", "zk-rollup", "optimistic"] then .l2
  else if anyKeyword all_text ["layer1", "l1", "blockchain", "consensus"] then .l1
  else if anyKeyword all_text ["defi", "dex", "swap", "lending", "yield", "amm", "liquidity"] then .defi
  else if anyKeyword all_text ["bridge", "cross-chain", "interoperability", "oracle"] then .infrastructure
  else if anyKeyword all_text ["sdk", "tool", "library", "framework", "cli", "api"] then .tooling
  else if anyKeyword all_text ["game", "gaming", "play-to-earn", "metaverse"] then .gaming
  else if anyKeyword all_text ["nft", "collectible", "marketplace"] then .nft
  else if anyKeyword all_text ["social", "dao", "governance", "community"] then .social
  else if anyKeyword all_text [" ai ", "machine learning", "llm", "gpt", "neural"] then .ai
  else .other

/-- Stars tier bonus (0-2 points). -/
def starsBonus (stars : Int) : ℚ :=
  if stars > 100 then 2
  else if stars > 50 then 1.5
  else if stars > 20 then 1
  else if stars > 10 then 0.5
  else 0

/-- Commits tier bonus (0-1.5 points). -/
def commitsBonus (commits : Int) : ℚ :=
  if commits > 50 then 1.5
  else if commits > 20 then 1
  else if commits > 10 then 0.5
  else 0

/-- Contributors tier bonus (0-1 point). -/
def contributorsBonus (contributors : Int) : ℚ :=
  if contributors > 5 then 1
  else if contributors > 2 then 0.5
  else 0

/-- Early-signals bonus: 0.5 when some signal mentions testnet/devnet. -/
def earlySignalsBonus (signals : List String) : ℚ :=
  if signals.any (fun s => strContains s "testnet" || strContains s "devnet") then 0.5
  else 0

/-- Python `round(x, 1)`.  Every value the scorer feeds it is an exact
multiple of `0.1` (proved via `round1_tenth` below), so the half-way
tie-breaking rule never comes into play. -/
def round1 (q : ℚ) : ℚ := ((⌊q * 10 + 1 / 2⌋ : ℤ) : ℚ) / 10

/-- Python `min(a, b)`: `a` when `a <= b`, else `b`. -/
def pyMin (a b : ℚ) : ℚ := if a ≤ b then a else b

/-- `ProjectService.calculate_initial_score`; the straight-line
`score +=` updates of the source appear as one sum, with
`stars`/`commits`/`contributors` the `data.get(_, 0)` values. -/
def calculate_initial_score (data : RecordData) : ℚ :=
  pyMin 10 (round1
    (5 + starsBonus (data.github_stars.getD 0)
      + commitsBonus (data.github_commits_30d.getD 0)
      + contributorsBonus (data.github_contributors.getD 0)
      + earlySignalsBonus data.early_signals
      + (if truthy data.twitter_url then 0.3 else 0)
      + (if truthy data.discord_url then 0.2 else 0)))

/-- The persisted `Project` entity (`models/project.py`).  Timestamps are
abstract instants (`Nat`); the autoincrement `id` is not modelled (every
claim keys entities by `slug`). -/
structure Project where
  name : String
  slug : String
  description : Option String := none
  source : ProjectSource
  source_url : Option String := none
  github_url : Option String := none
  github_org : Option String := none
  github_stars : Int := 0
  github_forks : Int := 0
  github_commits_30d : Int := 0
  github_contributors : Int := 0
  github_created_at : Option String := none
  github_language : Option String := none
  twitter_url : Option String := none
  twitter_handle : Option String := none
  website_url : Option String := none
  discord_url : Option String := none
  category : ProjectCategory := .other
  score : ℚ := 0
  confidence : ℚ := 0
  why_early : Option String := none
  summary : Option String := none
  red_flags : Option String := none
  status : ProjectStatus := .new
  is_featured : Bool := false
  discovered_at : Nat := 0
  analyzed_at : Option Nat := none
  updated_at : Nat := 0
deriving DecidableEq

/-- The `"Z" -> "+00:00"` normalisation applied before
`datetime.fromisoformat`; the stored timestamp is kept as this string
(the defensive parse-failure path, `except: pass`, touches no claim). -/
def normalizeIso (s : String) : String :=
  ((s.toList.map (fun c => if c = 'Z' then "+00:00".toList else [c])).flatten).asString

/-- `ProjectService._create_project`. -/
def _create_project (data : RecordData) (source : ProjectSource) (slug : String)
    (now : Nat) : Project :=
  { name := match data.name with
      | some (.str s) => s
      | _ => "Unknown"
    slug := slug
    description := data.description
    source := source
    source_url := pyOr data.github_url data.source_url
    github_url := data.github_url
    github_org := data.github_org
    github_stars := data.github_stars.getD 0
    github_forks := data.github_forks.getD 0
    github_commits_30d := data.github_commits_30d.getD 0
    github_contributors := data.github_contributors.getD 0
    github_created_at :=
      if truthy data.github_created_at then data.github_created_at.map normalizeIso
      else none
    github_language := data.github_language
    twitter_url := data.twitter_url
    twitter_handle := extract_twitter_handle data.twitter_url
    website_url := data.website_url
    discord_url := data.discord_url
    category := detect_category data
    score := calculate_initial_score data
    confidence := 0.3
    status := .new
    discovered_at := now
    updated_at := now }

/-- The metric block of `ProjectService._update_project`:
`project.github_stars = data.get("github_stars", project.github_stars)`
and the three statements after it. -/
def updateMetrics (project : Project) (data : RecordData) : Project :=
  { project with
    github_stars := data.github_stars.getD project.github_stars
    github_forks := data.github_forks.getD project.github_forks
    github_commits_30d := data.github_commits_30d.getD project.github_commits_30d
    github_contributors := data.github_contributors.getD project.github_contributors }

/-- `if data.get("twitter_url") and not project.twitter_url:` block. -/
def updateTwitter (project : Project) (data : RecordData) : Project :=
  if truthy data.twitter_url && !truthy project.twitter_url then
    { project with
      twitter_url := data.twitter_url
      twitter_handle := extract_twitter_handle data.twitter_url }
  else project

/-- `if data.get("discord_url") and not project.discord_url:` block. -/
def updateDiscord (project : Project) (data : RecordData) : Project :=
  if truthy data.discord_url && !truthy project.discord_url then
    { project with discord_url := data.discord_url }
  else project

/-- `if data.get("website_url") and not project.website_url:` block. -/
def updateWebsite (project : Project) (data : RecordData) : Project :=
  if truthy data.website_url && !truthy project.website_url then
    { project with website_url := data.website_url }
  else project

/-- `ProjectService._update_project` as a pure state transformer on the
entity: metric overwrite, the three guarded social-link fills in source
order, then score recomputation and the `updated_at` refresh. -/
def _update_project (project : Project) (data : RecordData) (now : Nat) : Project :=
  { updateWebsite (updateDiscord (updateTwitter (updateMetrics project data) data) data) data
    with
    score := calculate_initial_score data
    updated_at := now }

/-- The projects table: rows in insertion order. -/
abbrev DB := List Project

/-- The rows returned by `SELECT ... WHERE Project.slug == slug`. -/
def rowsWithSlug (db : DB) (slug : String) : List Project :=
  db.filter (fun p => p.slug == slug)

/-- `ProjectService._save_single_project`: compute the slug (raising on a
`None` name), run the lookup (`scalar_one_or_none`, which raises when
several rows match), then create or update, returning the outcome tag. -/
def _save_single_project (db : DB) (data : RecordData) (source : ProjectSource)
    (now : Nat) : Except PyErr (String × DB) :=
  match generate_slug_py (data.name.getD (.str "unknown")) source.value with
  | .error e => .error e
  | .ok slug =>
    match rowsWithSlug db slug with
    | [] => .ok ("new", db ++ [_create_project data source slug now])
    | [_] => .ok ("updated",
        db.map (fun p => if p.slug == slug then _update_project p data now else p))
    | _ => .error .multipleResultsFound

/-- The aggregate counters `{"new": _, "updated": _, "skipped": _}`. -/
structure Stats where
  new : Nat := 0
  updated : Nat := 0
  skipped : Nat := 0
deriving DecidableEq

/-- `stats[result] += 1` for the tag `_save_single_project` returned
(always `"new"` or `"updated"`; other keys would be a `KeyError` and are
unreachable). -/
def bumpStat (s : Stats) (tag : String) : Stats :=
  if tag = "new" then { s with new := s.new + 1 }
  else if tag = "updated" then { s with updated := s.updated + 1 }
  else s

/-- One loop iteration of `ProjectService.save_projects_from_collector`:
a raising record is logged and counted as skipped (table untouched — the
raise happens before any row is written), a saved one bumps its tag. -/
def saveStep (source : ProjectSource) (now : Nat) (acc : Stats × DB)
    (data : RecordData) : Stats × DB :=
  match _save_single_project acc.2 data source now with
  | .ok (tag, db') => (bumpStat acc.1 tag, db')
  | .error _ => ({ acc.1 with skipped := acc.1.skipped + 1 }, acc.2)

/-- `ProjectService.save_projects_from_collector`; the once-per-batch
commit is the returned table state. -/
def save_projects_from_collector (db : DB) (records : List RecordData)
    (source : ProjectSource) (now : Nat) : Stats × DB :=
  records.foldl (saveStep source now) ({ new := 0, updated := 0, skipped := 0 }, db)

/-- A `CollectionLog` row (`models/collection_log.py`). -/
structure CollectionLog where
  source : String
  collector_name : String
  started_at : Nat
  finished_at : Option Nat := none
  projects_found : Nat := 0
  projects_new : Nat := 0
  projects_updated : Nat := 0
  success : Bool := false
  error_message : Option String := none
deriving DecidableEq

/-- The dict `BaseCollector.run` returns: `projects_found` is an
`Option` because the failure dict carries no such key. -/
structure RunResult where
  success : Bool
  projects_found : Option Nat := none
  data : List RecordData := []
  error : Option String := none
deriving DecidableEq

/-- `BaseCollector.run` (`collectors/base.py`).  The behaviour of the
abstract `collect()` is the `collected` argument: a list on success, the
exception message otherwise.  The `finally` block appends the (mutated)
log row to the store in either case. -/
def BaseCollector_run (cname csource : String)
    (collected : Except String (List RecordData)) (t0 t1 : Nat)
    (logs : List CollectionLog) : RunResult × List CollectionLog :=
  match collected with
  | .ok results =>
    ({ success := true, projects_found := some results.length, data := results },
     logs ++ [{ source := csource, collector_name := cname, started_at := t0,
                finished_at := some t1, projects_found := results.length,
                success := true }])
  | .error e =>
    ({ success := false, data := [], error := some e },
     logs ++ [{ source := csource, collector_name := cname, started_at := t0,
                finished_at := some t1, success := false,
                error_message := some e }])

/-- Trigger configurations used by `TaskScheduler.setup_jobs`. -/
inductive Trigger where
  | interval (hours : Nat)
  | cron (hour minute : Nat)
deriving DecidableEq

/-- One `scheduler.add_job(...)` configuration. -/
structure JobConfig where
  id : String
  name : String
  trigger : Trigger
  max_instances : Nat
deriving DecidableEq

/-- `settings.github_collect_interval_hours` default (config.py). -/
def github_collect_interval_hours : Nat := 6

/-- `settings.testnet_collect_interval_hours` default (config.py). -/
def testnet_collect_interval_hours : Nat := 12

/-- `TaskScheduler.setup_jobs`: the three configured jobs, each with
`max_instances=1`. -/
def setup_jobs : List JobConfig :=
  [ { id := "github_collection", name := "GitHub Collection",
      trigger := .interval github_collect_interval_hours, max_instances := 1 },
    { id := "defillama_collection", name := "DeFiLlama Collection",
      trigger := .interval testnet_collect_interval_hours, max_instances := 1 },
    { id := "daily_summary", name := "Daily Summary",
      trigger := .cron 9 0, max_instances := 1 } ]

/-- Scheduler state: the `_is_running` flag, the configured jobs, and the
multiset of currently executing job bodies (by job id). -/
structure SchedulerState where
  running : Bool
  jobs : List JobConfig
  active : List String
deriving DecidableEq

/-- State of a freshly constructed `TaskScheduler`. -/
def initial_scheduler : SchedulerState :=
  { running := false, jobs := [], active := [] }

/-- Number of running instances of one job body. -/
def activeCount (s : SchedulerState) (jobId : String) : Nat :=
  s.active.count jobId

/-- Modelled from the spec: the firing semantics of the scheduling
library (apscheduler — not part of src/) for a job configured with
`max_instances`.  "If a trigger fires while the previous invocation of
the same job has not finished, the new firing is dropped, not queued,
not run in parallel": a firing starts a body only while the scheduler is
running and fewer than `max_instances` bodies of that job run; otherwise
the state is left unchanged. -/
def fireJob (s : SchedulerState) (j : String) : SchedulerState :=
  match s.jobs.find? (fun cfg => cfg.id == j) with
  | some cfg =>
    if s.running && decide (activeCount s j < cfg.max_instances) then
      { s with active := j :: s.active }
    else s
  | none => s

/-- Events the scheduler reacts to: the source's `start`/`stop` methods,
a trigger firing, and a job body finishing. -/
inductive SchedEvent where
  | start
  | stop
  | fire (jobId : String)
  | finish (jobId : String)

/-- One scheduler transition.  `start` and `stop` are
`TaskScheduler.start` / `TaskScheduler.stop` from the source (each a
no-op when `_is_running` already has the target value); `fire` is
`fireJob`; `finish` retires one running body. -/
def schedStep (s : SchedulerState) (e : SchedEvent) : SchedulerState :=
  match e with
  | .start => if !s.running then { s with running := true, jobs := setup_jobs } else s
  | .stop => if s.running then { s with running := false } else s
  | .fire j => fireJob s j
  | .finish j => { s with active := s.active.erase j }

/-- A run of the scheduler from the freshly constructed state. -/
def schedRun (events : List SchedEvent) : SchedulerState :=
  events.foldl schedStep initial_scheduler

/-- The method names the class body of `ProjectService`
(`services/project_service.py`) defines; attribute lookup on the
`project_service` singleton resolves exactly these. -/
def projectServiceMethods : List String :=
  ["generate_slug", "detect_category", "calculate_initial_score",
   "save_projects_from_collector", "_save_single_project", "_create_project",
   "_update_project", "_extract_twitter_handle", "get_projects",
   "get_project_by_slug", "get_stats"]

/-- The batch-persistence methods of `ProjectService` by attribute name:
`save_projects_from_collector` is the only one. -/
def saveMethodTable :
    List (String × (DB → List RecordData → ProjectSource → Nat → Stats × DB)) :=
  [("save_projects_from_collector", save_projects_from_collector)]

/-- Attribute lookup `project_service.<m>` restricted to batch
persistence: a name the class does not define raises `AttributeError`. -/
def lookupSaveMethod (m : String) :
    Except PyErr (DB → List RecordData → ProjectSource → Nat → Stats × DB) :=
  match saveMethodTable.find? (fun e => e.1 == m) with
  | some e => .ok e.2
  | none => .error .attributeError

/-- Observable outcome of one scheduled collection job body. -/
inductive JobOutcome where
  | saved (stats : Stats)
  | noData (error : Option String)
  | caught (message : String)
deriving DecidableEq

/-- `TaskScheduler.run_defillama_collection` after `collector.run()`
produced `result`: the persistence call is
`project_service.save_projects_from_defillama(result["data"])` and the
surrounding `try/except Exception` turns any exception into a log line.
In the `.ok` branch of the lookup the extra model arguments are
irrelevant: that branch is never reached (`ProjectService` defines no
such method, see `saveMethodTable`). -/
def run_defillama_collection (result : RunResult) (db : DB) (now : Nat) :
    JobOutcome × DB :=
  if result.success && !result.data.isEmpty then
    match lookupSaveMethod "save_projects_from_defillama" with
    | .ok f =>
      let r := f db result.data ProjectSource.manual now
      (.saved r.1, r.2)
    | .error _ => (.caught "AttributeError", db)
  else
    (.noData result.error, db)

/-- The `/api/collect/defillama` endpoint body (`main.py`) after
`collector.run()`: no `try` surrounds the persistence call, so the
`AttributeError` propagates to the web framework (the response shaping
on success is not modelled — that branch is unreachable). -/
def collect_defillama_endpoint (save_to_db : Bool) (result : RunResult)
    (db : DB) (now : Nat) : Except PyErr DB := do
  if save_to_db && result.success && !result.data.isEmpty then
    let f ← lookupSaveMethod "save_projects_from_defillama"
    .ok (f db result.data ProjectSource.manual now).2
  else
    .ok db

/-- The uniqueness guarantee of the `slug` column (unique index): at most
one row per slug. -/
def UniqueSlugs (db : DB) : Prop :=
  ∀ slug : String, (rowsWithSlug db slug).length ≤ 1

/-- Invariant of every reachable scheduler state: all configured jobs
have `max_instances = 1` and at most one body per job id is running. -/
def SchedInv (s : SchedulerState) : Prop :=
  (∀ cfg ∈ s.jobs, cfg.max_instances = 1) ∧ ∀ j : String, activeCount s j ≤ 1

/-- A stored entity whose twitter link is non-null but Python-falsy (the
empty string) and whose discord link is null. -/
def cexStoredProject : Project :=
  { name := "Alpha", slug := "alpha-github", source := ProjectSource.github,
    twitter_url := some "" }

/-- An incoming record with a different, non-null twitter link and a
non-null but empty discord link. -/
def cexIncomingData : RecordData :=
  { twitter_url := some "https://twitter.com/alpha", discord_url := some "" }

/-! ## Scoring lemmas -/

/-- Each stars tier is a nonnegative number of tenths, at most 2.0. -/
theorem starsBonus_tenths (s : Int) : ∃ k : ℕ, k ≤ 20 ∧ starsBonus s = (k : ℚ) / 10 := by
  unfold starsBonus
  split_ifs
  · exact ⟨20, by norm_num⟩
  · exact ⟨15, by norm_num⟩
  · exact ⟨10, by norm_num⟩
  · exact ⟨5, by norm_num⟩
  · exact ⟨0, by norm_num⟩

/-- Each commits tier is a nonnegative number of tenths, at most 1.5. -/
theorem commitsBonus_tenths (s : Int) : ∃ k : ℕ, k ≤ 15 ∧ commitsBonus s = (k : ℚ) / 10 := by
  unfold commitsBonus
  split_ifs
  · exact ⟨15, by norm_num⟩
  · exact ⟨10, by norm_num⟩
  · exact ⟨5, by norm_num⟩
  · exact ⟨0, by norm_num⟩

/-- Each contributors tier is a nonnegative number of tenths, at most 1.0. -/
theorem contributorsBonus_tenths (s : Int) :
    ∃ k : ℕ, k ≤ 10 ∧ contributorsBonus s = (k : ℚ) / 10 := by
  unfold contributorsBonus
  split_ifs
  · exact ⟨10, by norm_num⟩
  · exact ⟨5, by norm_num⟩
  · exact ⟨0, by norm_num⟩

/-- The early-signals bonus is a nonnegative number of tenths, at most 0.5. -/
theorem earlySignalsBonus_tenths (l : List String) :
    ∃ k : ℕ, k ≤ 5 ∧ earlySignalsBonus l = (k : ℚ) / 10 := by
  unfold earlySignalsBonus
  split_ifs
  · exact ⟨5, by norm_num⟩
  · exact ⟨0, by norm_num⟩

/-- `round(q, 1)` is the identity on exact multiples of one tenth. -/
theorem round1_tenth (k : ℤ) : round1 ((k : ℚ) / 10) = (k : ℚ) / 10 := by
  unfold round1
  have h1 : ((k : ℚ) / 10) * 10 + 1 / 2 = (1 : ℚ) / 2 + (k : ℤ) := by
    ring
  rw [h1, Int.floor_add_int]
  norm_num

/-- Python `min(a, b)` is at most `a`. -/
theorem pyMin_le_left (a b : ℚ) : pyMin a b ≤ a := by
  unfold pyMin
  split_ifs with h
  · exact le_refl a
  · linarith [not_le.mp h]

/-- A lower bound of both arguments bounds Python `min(a, b)`. -/
theorem le_pyMin {c a b : ℚ} (ha : c ≤ a) (hb : c ≤ b) : c ≤ pyMin a b := by
  unfold pyMin
  split_ifs <;> assumption

/-- The score the tier sum feeds into `min(10.0, round(score, 1))` is
`(50 + tenths) / 10` for a nonnegative count of tenths. -/
theorem calculate_initial_score_decomposition (data : RecordData) :
    ∃ k : ℕ, calculate_initial_score data = pyMin 10 (((50 + k : ℕ) : ℚ) / 10) := by
  obtain ⟨a, _, ha⟩ := starsBonus_tenths (data.github_stars.getD 0)
  obtain ⟨b, _, hb⟩ := commitsBonus_tenths (data.github_commits_30d.getD 0)
  obtain ⟨c, _, hc⟩ := contributorsBonus_tenths (data.github_contributors.getD 0)
  obtain ⟨d, _, hd⟩ := earlySignalsBonus_tenths data.early_signals
  refine ⟨a + b + c + d + (if truthy data.twitter_url then 3 else 0)
      + (if truthy data.discord_url then 2 else 0), ?_⟩
  unfold calculate_initial_score
  rw [ha, hb, hc, hd]
  have ht : (if truthy data.twitter_url then (0.3 : ℚ) else 0)
      = ((if truthy data.twitter_url then (3 : ℕ) else 0) : ℚ) / 10 := by
    split_ifs <;> norm_num
  have hdq : (if truthy data.discord_url then (0.2 : ℚ) else 0)
      = ((if truthy data.discord_url then (2 : ℕ) else 0) : ℚ) / 10 := by
    split_ifs <;> norm_num
  rw [ht, hdq]
  have hsum : (5 : ℚ) + (a : ℚ) / 10 + (b : ℚ) / 10 + (c : ℚ) / 10 + (d : ℚ) / 10
      + ((if truthy data.twitter_url then (3 : ℕ) else 0) : ℚ) / 10
      + ((if truthy data.discord_url then (2 : ℕ) else 0) : ℚ) / 10
      = (((50 + (a + b + c + d + (if truthy data.twitter_url then 3 else 0)
          + (if truthy data.discord_url then 2 else 0)) : ℕ) : ℤ) : ℚ) / 10 := by
    push_cast
    ring
  rw [hsum, round1_tenth]
  push_cast
  ring_nf

/-- Claim C8: for every input record the score is in [0, 10], the
function is deterministic (a pure function: re-scoring the same record
yields the same value), and in fact the score always lies in [5, 10]. -/
theorem claim_C8_score_range_idempotent (data : RecordData) :
    0 ≤ calculate_initial_score data ∧ calculate_initial_score data ≤ 10 ∧
    calculate_initial_score data = calculate_initial_score data ∧
    5 ≤ calculate_initial_score data := by
  obtain ⟨k, hk⟩ := calculate_initial_score_decomposition data
  have hcast : (50 : ℚ) ≤ ((50 + k : ℕ) : ℚ) := by
    push_cast
    linarith [(Nat.cast_nonneg k : (0 : ℚ) ≤ (k : ℚ))]
  have h5 : (5 : ℚ) ≤ calculate_initial_score data := by
    rw [hk]
    refine le_pyMin (by norm_num) ?_
    linarith
  refine ⟨by linarith, ?_, rfl, h5⟩
  rw [hk]
  exact pyMin_le_left _ _

/-- Claim C7: the concrete scoring scenario — 150 stars (tier 2.0),
60 commits in 30 days (tier 1.5), 8 contributors (tier 1.0), a non-null
twitter link (0.3), no discord and no testnet/devnet signal — scores
exactly 9.8 on top of the 5.0 base, after clamping and rounding. -/
theorem claim_C7_concrete_score :
    starsBonus 150 = 2 ∧ commitsBonus 60 = 1.5 ∧ contributorsBonus 8 = 1 ∧
    calculate_initial_score
      { github_stars := some 150, github_commits_30d := some 60,
        github_contributors := some 8,
        twitter_url := some "https://twitter.com/alpha" } = 9.8 := by
  have ht : truthy (some "https://twitter.com/alpha") = true := by decide
  have hf : truthy none = false := rfl
  refine ⟨by norm_num [starsBonus], by norm_num [commitsBonus],
    by norm_num [contributorsBonus], ?_⟩
  norm_num [calculate_initial_score, starsBonus, commitsBonus, contributorsBonus,
    earlySignalsBonus, ht, hf, round1, pyMin]

/-! ## Category detection -/

/-- A rule whose keywords all fail to occur in the text does not fire. -/
theorem anyKeyword_eq_false {t : String} {kws : List String}
    (h : ∀ kw ∈ kws, strContains t kw = false) : anyKeyword t kws = false := by
  simp only [anyKeyword, List.any_eq_false]
  intro kw hkw
  simp [h kw hkw]

/-- When no keyword of any rule occurs in the text, the ordered rule
table falls through to `other`. -/
theorem firstMatch_eq_other {t : String} :
    ∀ rules : List (List String × ProjectCategory),
      (∀ r ∈ rules, ∀ kw ∈ r.1, strContains t kw = false) →
      firstMatch t rules = ProjectCategory.other := by
  intro rules
  induction rules with
  | nil => intro _; rfl
  | cons r rest ih =>
    intro h
    obtain ⟨kws, c⟩ := r
    rw [firstMatch, anyKeyword_eq_false (fun kw hkw => h (kws, c) (by simp) kw hkw)]
    exact ih fun r hr kw hkw => h r (List.mem_cons_of_mem _ hr) kw hkw

/-- Claim C10: `detect_category` is exactly the first-match-wins
evaluation of the ordered rule table `categoryRules` (hence it returns
exactly one value of the closed enum, testing L2 before L1 and DeFi
before Infrastructure, in source order), and it returns `other` when no
keyword of any rule occurs in the record's lowercased text blob.  As a
plain function of the record it is pure and deterministic. -/
theorem claim_C10_detect_category (data : RecordData) :
    detect_category data = firstMatch (categoryText data) categoryRules ∧
    ((categoryRules.all fun r => r.1.all fun kw => !strContains (categoryText data) kw) = true →
      detect_category data = ProjectCategory.other) := by
  constructor
  · rfl
  · intro h
    have h' : ∀ r ∈ categoryRules, ∀ kw ∈ r.1, strContains (categoryText data) kw = false := by
      simpa only [List.all_eq_true, Bool.not_eq_true'] using h
    have hfm : firstMatch (categoryText data) categoryRules = ProjectCategory.other :=
      firstMatch_eq_other categoryRules h'
    exact (show detect_category data = firstMatch (categoryText data) categoryRules from rfl).trans hfm

/-- Witness for C10 at a concrete record whose text matches no rule. -/
theorem claim_C10_witness :
    detect_category { name := some (PyStr.str "zzz") } = ProjectCategory.other :=
  (claim_C10_detect_category { name := some (PyStr.str "zzz") }).2 (by decide)

/-! ## Collector run contract -/

/-- Claim C5: for every behaviour of `collect()`, `run()` appends exactly
one CollectionLog row; on a returned list it reports success with the
list's length and the data; on any exception it catches it, records a
failed log row carrying the message, and returns
`{success: false, error: message, data: []}` — never propagating. -/
theorem claim_C5_run_contract (cname csource : String) (t0 t1 : Nat)
    (logs : List CollectionLog) :
    (∀ collected, ((BaseCollector_run cname csource collected t0 t1 logs).2).length
        = logs.length + 1) ∧
    (∀ results, BaseCollector_run cname csource (.ok results) t0 t1 logs =
      ({ success := true, projects_found := some results.length, data := results },
       logs ++ [{ source := csource, collector_name := cname, started_at := t0,
                  finished_at := some t1, projects_found := results.length,
                  success := true }])) ∧
    (∀ e, BaseCollector_run cname csource (.error e) t0 t1 logs =
      ({ success := false, projects_found := none, data := [], error := some e },
       logs ++ [{ source := csource, collector_name := cname, started_at := t0,
                  finished_at := some t1, projects_found := 0, success := false,
                  error_message := some e }])) := by
  refine ⟨fun collected => ?_, fun results => rfl, fun e => rfl⟩
  cases collected <;> simp [BaseCollector_run]

/-! ## The missing DeFiLlama persistence method -/

/-- Claim C3: whenever the DeFiLlama collector's `run()` reports success
with non-empty data, the scheduled job's persistence call hits an
`AttributeError` (`ProjectService` defines neither
`save_projects_from_defillama` nor `save_projects_from_testnet`), the
job's `except` swallows it, and the project table is left untouched; the
corresponding endpoint propagates the same `AttributeError`. -/
theorem claim_C3_defillama_never_persists (result : RunResult) (db : DB) (now : Nat)
    (hs : result.success = true) (hd : result.data ≠ []) :
    run_defillama_collection result db now = (.caught "AttributeError", db) ∧
    collect_defillama_endpoint true result db now = .error .attributeError ∧
    projectServiceMethods.contains "save_projects_from_defillama" = false ∧
    projectServiceMethods.contains "save_projects_from_testnet" = false := by
  have hni : result.data.isEmpty = false := by
    cases hdata : result.data with
    | nil => exact absurd hdata hd
    | cons a t => rfl
  have hlook : lookupSaveMethod "save_projects_from_defillama" = .error .attributeError := rfl
  refine ⟨?_, ?_, by decide, by decide⟩
  · unfold run_defillama_collection
    rw [hs, hni, hlook]
    rfl
  · unfold collect_defillama_endpoint
    rw [hs, hni, hlook]
    rfl

/-- Witness for C3 at a concrete successful one-record run result. -/
theorem claim_C3_witness :
    run_defillama_collection
        { success := true, projects_found := some 1, data := [{}], error := none }
        [] 0
      = (.caught "AttributeError", []) :=
  (claim_C3_defillama_never_persists
    { success := true, projects_found := some 1, data := [{}], error := none }
    [] 0 rfl (by simp)).1

/-! ## Scheduler -/

/-- The freshly constructed scheduler satisfies the invariant. -/
theorem schedInv_init : SchedInv initial_scheduler := by
  constructor
  · intro cfg hcfg
    simp [initial_scheduler] at hcfg
  · intro j
    simp [activeCount, initial_scheduler]

/-- Every configured job carries `max_instances = 1`. -/
theorem setup_jobs_max_instances : ∀ cfg ∈ setup_jobs, cfg.max_instances = 1 := by
  decide

/-- One transition preserves the scheduler invariant. -/
theorem schedInv_step (s : SchedulerState) (e : SchedEvent) (h : SchedInv s) :
    SchedInv (schedStep s e) := by
  obtain ⟨hjobs, hact⟩ := h
  cases e with
  | start =>
    by_cases hr : s.running
    · simpa [schedStep, hr] using ⟨hjobs, hact⟩
    · refine ⟨?_, ?_⟩ <;> simp only [schedStep, hr, Bool.not_false, if_pos]
      · exact setup_jobs_max_instances
      · intro j
        exact hact j
  | stop =>
    by_cases hr : s.running <;>
      simpa [schedStep, hr] using ⟨hjobs, hact⟩
  | fire j =>
    simp only [schedStep, fireJob]
    cases hfind : s.jobs.find? (fun cfg => cfg.id == j) with
    | none => exact ⟨hjobs, hact⟩
    | some cfg =>
      show SchedInv (if (s.running && decide (activeCount s j < cfg.max_instances)) = true
        then { s with active := j :: s.active } else s)
      by_cases hcond : (s.running && decide (activeCount s j < cfg.max_instances)) = true
      · rw [if_pos hcond]
        have hmem : cfg ∈ s.jobs := List.mem_of_find?_eq_some hfind
        have hmax : cfg.max_instances = 1 := hjobs cfg hmem
        have hlt : s.active.count j = 0 := by
          have h1 := (Bool.and_eq_true _ _).mp hcond
          have h2 : activeCount s j < cfg.max_instances := of_decide_eq_true h1.2
          unfold activeCount at h2
          omega
        refine ⟨hjobs, fun j' => ?_⟩
        show (j :: s.active).count j' ≤ 1
        by_cases hj : j' = j
        · subst hj
          rw [List.count_cons_self]
          omega
        · rw [List.count_cons_of_ne hj]
          exact hact j'
      · rw [if_neg hcond]
        exact ⟨hjobs, hact⟩
  | finish j =>
    refine ⟨hjobs, fun j' => ?_⟩
    calc (s.active.erase j).count j' ≤ s.active.count j' :=
          (List.erase_sublist j s.active).count_le j'
      _ ≤ 1 := hact j'

/-- Every reachable scheduler state satisfies the invariant. -/
theorem schedInv_run (events : List SchedEvent) : SchedInv (schedRun events) := by
  unfold schedRun
  have h : ∀ (l : List SchedEvent) (s : SchedulerState), SchedInv s →
      SchedInv (l.foldl schedStep s) := by
    intro l
    induction l with
    | nil => exact fun s hs => hs
    | cons e t ih => exact fun s hs => ih (schedStep s e) (schedInv_step s e hs)
  exact h events initial_scheduler schedInv_init

/-- Claim C6: starting an already-running scheduler is a no-op and so is
stopping an already-stopped one; along every event sequence from the
fresh state at most one body of any job runs at a time; and a firing
that arrives while a body of the same job is still running (all
configured jobs have `max_instances = 1`) leaves the state unchanged —
the firing is dropped, not queued. -/
theorem claim_C6_scheduler_no_overlap (s : SchedulerState)
    (events : List SchedEvent) (j : String) :
    (s.running = true → schedStep s .start = s) ∧
    (s.running = false → schedStep s .stop = s) ∧
    activeCount (schedRun events) j ≤ 1 ∧
    ((∀ cfg ∈ s.jobs, cfg.max_instances = 1) → 1 ≤ activeCount s j →
      schedStep s (.fire j) = s) := by
  refine ⟨?_, ?_, (schedInv_run events).2 j, ?_⟩
  · intro hr
    simp [schedStep, hr]
  · intro hr
    simp [schedStep, hr]
  · intro hmax hcount
    show fireJob s j = s
    unfold fireJob
    cases hfind : s.jobs.find? (fun cfg => cfg.id == j) with
    | none => rfl
    | some cfg =>
      show (if (s.running && decide (activeCount s j < cfg.max_instances)) = true
        then { s with active := j :: s.active } else s) = s
      have hm : cfg.max_instances = 1 := hmax cfg (List.mem_of_find?_eq_some hfind)
      have hdec : decide (activeCount s j < cfg.max_instances) = false := by
        rw [hm]
        exact decide_eq_false (by omega)
      rw [hdec]
      simp

/-- Witness for C6: a running scheduler with the configured jobs and one
running instance of the GitHub job ignores both a redundant `start` and
a firing of the busy job. -/
theorem claim_C6_witness :
    schedStep { running := true, jobs := setup_jobs,
                active := ["github_collection"] } .start
      = { running := true, jobs := setup_jobs, active := ["github_collection"] } ∧
    schedStep { running := true, jobs := setup_jobs,
                active := ["github_collection"] } (.fire "github_collection")
      = { running := true, jobs := setup_jobs, active := ["github_collection"] } :=
  ⟨(claim_C6_scheduler_no_overlap
      { running := true, jobs := setup_jobs, active := ["github_collection"] }
      [] "github_collection").1 rfl,
   (claim_C6_scheduler_no_overlap
      { running := true, jobs := setup_jobs, active := ["github_collection"] }
      [] "github_collection").2.2.2 setup_jobs_max_instances (by decide)⟩

/-! ## Merge policy on upsert of an existing entity -/

/-- Metric overwrite: stars. -/
theorem um_stars (p : Project) (d : RecordData) :
    (updateMetrics p d).github_stars = d.github_stars.getD p.github_stars := rfl

/-- Metric overwrite: forks. -/
theorem um_forks (p : Project) (d : RecordData) :
    (updateMetrics p d).github_forks = d.github_forks.getD p.github_forks := rfl

/-- Metric overwrite: commits. -/
theorem um_commits (p : Project) (d : RecordData) :
    (updateMetrics p d).github_commits_30d
      = d.github_commits_30d.getD p.github_commits_30d := rfl

/-- Metric overwrite: contributors. -/
theorem um_contrib (p : Project) (d : RecordData) :
    (updateMetrics p d).github_contributors
      = d.github_contributors.getD p.github_contributors := rfl

/-- The metric block leaves the twitter link alone. -/
theorem um_twitter (p : Project) (d : RecordData) :
    (updateMetrics p d).twitter_url = p.twitter_url := rfl

/-- The metric block leaves the discord link alone. -/
theorem um_discord (p : Project) (d : RecordData) :
    (updateMetrics p d).discord_url = p.discord_url := rfl

/-- The metric block leaves the website link alone. -/
theorem um_website (p : Project) (d : RecordData) :
    (updateMetrics p d).website_url = p.website_url := rfl

/-- The metric block leaves the slug alone. -/
theorem um_slug (p : Project) (d : RecordData) :
    (updateMetrics p d).slug = p.slug := rfl

/-- The twitter fill as a conditional. -/
theorem ut_twitter (p : Project) (d : RecordData) :
    (updateTwitter p d).twitter_url
      = if truthy d.twitter_url && !truthy p.twitter_url then d.twitter_url
        else p.twitter_url := by
  unfold updateTwitter
  split_ifs <;> rfl

/-- The twitter fill leaves the discord link alone. -/
theorem ut_discord (p : Project) (d : RecordData) :
    (updateTwitter p d).discord_url = p.discord_url := by
  unfold updateTwitter
  split_ifs <;> rfl

/-- The twitter fill leaves the website link alone. -/
theorem ut_website (p : Project) (d : RecordData) :
    (updateTwitter p d).website_url = p.website_url := by
  unfold updateTwitter
  split_ifs <;> rfl

/-- The twitter fill leaves every metric alone. -/
theorem ut_metrics (p : Project) (d : RecordData) :
    (updateTwitter p d).github_stars = p.github_stars ∧
    (updateTwitter p d).github_forks = p.github_forks ∧
    (updateTwitter p d).github_commits_30d = p.github_commits_30d ∧
    (updateTwitter p d).github_contributors = p.github_contributors := by
  unfold updateTwitter
  split_ifs <;> exact ⟨rfl, rfl, rfl, rfl⟩

/-- The twitter fill leaves the slug alone. -/
theorem ut_slug (p : Project) (d : RecordData) :
    (updateTwitter p d).slug = p.slug := by
  unfold updateTwitter
  split_ifs <;> rfl

/-- The discord fill as a conditional. -/
theorem ud_discord (p : Project) (d : RecordData) :
    (updateDiscord p d).discord_url
      = if truthy d.discord_url && !truthy p.discord_url then d.discord_url
        else p.discord_url := by
  unfold updateDiscord
  split_ifs <;> rfl

/-- The discord fill leaves the twitter link alone. -/
theorem ud_twitter (p : Project) (d : RecordData) :
    (updateDiscord p d).twitter_url = p.twitter_url := by
  unfold updateDiscord
  split_ifs <;> rfl

/-- The discord fill leaves the website link alone. -/
theorem ud_website (p : Project) (d : RecordData) :
    (updateDiscord p d).website_url = p.website_url := by
  unfold updateDiscord
  split_ifs <;> rfl

/-- The discord fill leaves every metric alone. -/
theorem ud_metrics (p : Project) (d : RecordData) :
    (updateDiscord p d).github_stars = p.github_stars ∧
    (updateDiscord p d).github_forks = p.github_forks ∧
    (updateDiscord p d).github_commits_30d = p.github_commits_30d ∧
    (updateDiscord p d).github_contributors = p.github_contributors := by
  unfold updateDiscord
  split_ifs <;> exact ⟨rfl, rfl, rfl, rfl⟩

/-- The discord fill leaves the slug alone. -/
theorem ud_slug (p : Project) (d : RecordData) :
    (updateDiscord p d).slug = p.slug := by
  unfold updateDiscord
  split_ifs <;> rfl

/-- The website fill as a conditional. -/
theorem uw_website (p : Project) (d : RecordData) :
    (updateWebsite p d).website_url
      = if truthy d.website_url && !truthy p.website_url then d.website_url
        else p.website_url := by
  unfold updateWebsite
  split_ifs <;> rfl

/-- The website fill leaves the twitter link alone. -/
theorem uw_twitter (p : Project) (d : RecordData) :
    (updateWebsite p d).twitter_url = p.twitter_url := by
  unfold updateWebsite
  split_ifs <;> rfl

/-- The website fill leaves the discord link alone. -/
theorem uw_discord (p : Project) (d : RecordData) :
    (updateWebsite p d).discord_url = p.discord_url := by
  unfold updateWebsite
  split_ifs <;> rfl

/-- The website fill leaves every metric alone. -/
theorem uw_metrics (p : Project) (d : RecordData) :
    (updateWebsite p d).github_stars = p.github_stars ∧
    (updateWebsite p d).github_forks = p.github_forks ∧
    (updateWebsite p d).github_commits_30d = p.github_commits_30d ∧
    (updateWebsite p d).github_contributors = p.github_contributors := by
  unfold updateWebsite
  split_ifs <;> exact ⟨rfl, rfl, rfl, rfl⟩

/-- The website fill leaves the slug alone. -/
theorem uw_slug (p : Project) (d : RecordData) :
    (updateWebsite p d).slug = p.slug := by
  unfold updateWebsite
  split_ifs <;> rfl

/-- `_update_project` characterised field by field. -/
theorem update_project_fields (p : Project) (d : RecordData) (n : Nat) :
    (_update_project p d n).github_stars = d.github_stars.getD p.github_stars ∧
    (_update_project p d n).github_forks = d.github_forks.getD p.github_forks ∧
    (_update_project p d n).github_commits_30d
      = d.github_commits_30d.getD p.github_commits_30d ∧
    (_update_project p d n).github_contributors
      = d.github_contributors.getD p.github_contributors ∧
    (_update_project p d n).twitter_url
      = (if truthy d.twitter_url && !truthy p.twitter_url then d.twitter_url
         else p.twitter_url) ∧
    (_update_project p d n).discord_url
      = (if truthy d.discord_url && !truthy p.discord_url then d.discord_url
         else p.discord_url) ∧
    (_update_project p d n).website_url
      = (if truthy d.website_url && !truthy p.website_url then d.website_url
         else p.website_url) ∧
    (_update_project p d n).score = calculate_initial_score d ∧
    (_update_project p d n).updated_at = n ∧
    (_update_project p d n).slug = p.slug := by
  have hstars : (_update_project p d n).github_stars
      = d.github_stars.getD p.github_stars := by
    show (updateWebsite (updateDiscord (updateTwitter (updateMetrics p d) d) d) d).github_stars
      = d.github_stars.getD p.github_stars
    rw [(uw_metrics _ _).1, (ud_metrics _ _).1, (ut_metrics _ _).1, um_stars]
  have hforks : (_update_project p d n).github_forks
      = d.github_forks.getD p.github_forks := by
    show (updateWebsite (updateDiscord (updateTwitter (updateMetrics p d) d) d) d).github_forks
      = d.github_forks.getD p.github_forks
    rw [(uw_metrics _ _).2.1, (ud_metrics _ _).2.1, (ut_metrics _ _).2.1, um_forks]
  have hcommits : (_update_project p d n).github_commits_30d
      = d.github_commits_30d.getD p.github_commits_30d := by
    show (updateWebsite (updateDiscord (updateTwitter (updateMetrics p d) d) d) d).github_commits_30d
      = d.github_commits_30d.getD p.github_commits_30d
    rw [(uw_metrics _ _).2.2.1, (ud_metrics _ _).2.2.1, (ut_metrics _ _).2.2.1, um_commits]
  have hcontrib : (_update_project p d n).github_contributors
      = d.github_contributors.getD p.github_contributors := by
    show (updateWebsite (updateDiscord (updateTwitter (updateMetrics p d) d) d) d).github_contributors
      = d.github_contributors.getD p.github_contributors
    rw [(uw_metrics _ _).2.2.2, (ud_metrics _ _).2.2.2, (ut_metrics _ _).2.2.2, um_contrib]
  have htw : (_update_project p d n).twitter_url
      = (if truthy d.twitter_url && !truthy p.twitter_url then d.twitter_url
         else p.twitter_url) := by
    show (updateWebsite (updateDiscord (updateTwitter (updateMetrics p d) d) d) d).twitter_url
      = _
    rw [uw_twitter, ud_twitter, ut_twitter, um_twitter]
  have hdc : (_update_project p d n).discord_url
      = (if truthy d.discord_url && !truthy p.discord_url then d.discord_url
         else p.discord_url) := by
    show (updateWebsite (updateDiscord (updateTwitter (updateMetrics p d) d) d) d).discord_url
      = _
    rw [uw_discord, ud_discord, ut_discord, um_discord]
  have hwb : (_update_project p d n).website_url
      = (if truthy d.website_url && !truthy p.website_url then d.website_url
         else p.website_url) := by
    show (updateWebsite (updateDiscord (updateTwitter (updateMetrics p d) d) d) d).website_url
      = _
    rw [uw_website, ud_website, ut_website, um_website]
  have hslug : (_update_project p d n).slug = p.slug := by
    show (updateWebsite (updateDiscord (updateTwitter (updateMetrics p d) d) d) d).slug = p.slug
    rw [uw_slug, ud_slug, ut_slug, um_slug]
  exact ⟨hstars, hforks, hcommits, hcontrib, htw, hdc, hwb, rfl, rfl, hslug⟩

/-- Claim C2 (amended): metrics present in the incoming record overwrite
the stored values (absent ones are kept); each social link is written
only when the stored value is Python-falsy (null or empty) and the
incoming value is truthy (non-null and non-empty), and is left unchanged
otherwise; the score is recomputed from the incoming record alone; and
`updated_at` is refreshed to the update instant. -/
theorem claim_C2_merge_policy (p : Project) (data : RecordData) (now : Nat) :
    ((_update_project p data now).github_stars = data.github_stars.getD p.github_stars ∧
     (_update_project p data now).github_forks = data.github_forks.getD p.github_forks ∧
     (_update_project p data now).github_commits_30d
        = data.github_commits_30d.getD p.github_commits_30d ∧
     (_update_project p data now).github_contributors
        = data.github_contributors.getD p.github_contributors) ∧
    (truthy p.twitter_url = true →
      (_update_project p data now).twitter_url = p.twitter_url) ∧
    (truthy p.twitter_url = false → truthy data.twitter_url = true →
      (_update_project p data now).twitter_url = data.twitter_url) ∧
    (truthy data.twitter_url = false →
      (_update_project p data now).twitter_url = p.twitter_url) ∧
    (truthy p.discord_url = true →
      (_update_project p data now).discord_url = p.discord_url) ∧
    (truthy p.discord_url = false → truthy data.discord_url = true →
      (_update_project p data now).discord_url = data.discord_url) ∧
    (truthy data.discord_url = false →
      (_update_project p data now).discord_url = p.discord_url) ∧
    (truthy p.website_url = true →
      (_update_project p data now).website_url = p.website_url) ∧
    (truthy p.website_url = false → truthy data.website_url = true →
      (_update_project p data now).website_url = data.website_url) ∧
    (truthy data.website_url = false →
      (_update_project p data now).website_url = p.website_url) ∧
    (_update_project p data now).score = calculate_initial_score data ∧
    (_update_project p data now).updated_at = now := by
  obtain ⟨h1, h2, h3, h4, htw, hdc, hwb, hsc, hup, _⟩ := update_project_fields p data now
  refine ⟨⟨h1, h2, h3, h4⟩, ?_, ?_, ?_, ?_, ?_, ?_, ?_, ?_, ?_, hsc, hup⟩
  · intro h
    rw [htw, h]
    simp
  · intro h h'
    rw [htw, h, h']
    simp
  · intro h
    rw [htw, h]
    simp
  · intro h
    rw [hdc, h]
    simp
  · intro h h'
    rw [hdc, h, h']
    simp
  · intro h
    rw [hdc, h]
    simp
  · intro h
    rw [hwb, h]
    simp
  · intro h h'
    rw [hwb, h, h']
    simp
  · intro h
    rw [hwb, h]
    simp

/-- Counterexample to C2 as stated: with a stored twitter link that is
non-null but empty, an incoming different non-null value *overwrites* it
(the code tests Python truthiness, not null-ness); and with a stored
null discord link, an incoming non-null but empty value does *not* fill
it. -/
theorem claim_C2_counterexample :
    cexStoredProject.twitter_url = some "" ∧
    cexIncomingData.twitter_url = some "https://twitter.com/alpha" ∧
    (_update_project cexStoredProject cexIncomingData 7).twitter_url
      = some "https://twitter.com/alpha" ∧
    cexStoredProject.discord_url = none ∧
    cexIncomingData.discord_url = some "" ∧
    (_update_project cexStoredProject cexIncomingData 7).discord_url = none := by
  refine ⟨rfl, rfl, ?_, rfl, rfl, ?_⟩ <;>
    · obtain ⟨_, _, _, _, htw, hdc, _, _, _, _⟩ :=
        update_project_fields cexStoredProject cexIncomingData 7
      first
        | (rw [htw]; decide)
        | (rw [hdc]; decide)

/-- Witness for the amended C2 at a stored non-empty twitter link: the
incoming different link does not replace it. -/
theorem claim_C2_witness :
    (_update_project
      { name := "Beta", slug := "beta-github", source := ProjectSource.github,
        twitter_url := some "https://twitter.com/beta" }
      { twitter_url := some "https://twitter.com/gamma" } 3).twitter_url
      = some "https://twitter.com/beta" :=
  (claim_C2_merge_policy
    { name := "Beta", slug := "beta-github", source := ProjectSource.github,
      twitter_url := some "https://twitter.com/beta" }
    { twitter_url := some "https://twitter.com/gamma" } 3).2.1 (by decide)

/-! ## Upsert idempotence -/

/-- `_update_project` never rewrites the slug. -/
theorem update_project_slug (p : Project) (d : RecordData) (n : Nat) :
    (_update_project p d n).slug = p.slug := by
  show (updateWebsite (updateDiscord (updateTwitter (updateMetrics p d) d) d) d).slug = p.slug
  rw [uw_slug, ud_slug, ut_slug, um_slug]

/-- `_create_project` stores exactly the slug it was handed. -/
theorem create_project_slug (d : RecordData) (src : ProjectSource) (slug : String)
    (n : Nat) : (_create_project d src slug n).slug = slug := rfl

/-- The bulk in-place update keeps every row's slug, so a lookup after
it is the mapped lookup before it. -/
theorem rowsWithSlug_map_update (db : DB) (slug s' : String) (d : RecordData) (n : Nat) :
    rowsWithSlug (db.map (fun p => if p.slug == slug then _update_project p d n else p)) s'
      = (rowsWithSlug db s').map (fun p => if p.slug == slug then _update_project p d n else p) := by
  unfold rowsWithSlug
  rw [List.filter_map]
  have hpt : ∀ p ∈ db,
      ((fun q => q.slug == s') ∘ fun p => if p.slug == slug then _update_project p d n else p) p
        = (p.slug == s') := by
    intro p _
    simp only [Function.comp]
    split_ifs with h
    · rw [update_project_slug]
    · rfl
  rw [List.filter_congr hpt]

/-- Claim C1: upserting one record into a table with no row for its slug
creates exactly one row ("new"); upserting the same record again merges
into that row ("updated") — the table keeps exactly one row for the slug
and its size does not grow on the second upsert. -/
theorem claim_C1_upsert_idempotence (db : DB) (data : RecordData)
    (source : ProjectSource) (t1 t2 : Nat) (n : String)
    (hname : data.name = some (PyStr.str n))
    (hfresh : rowsWithSlug db (generate_slug n source.value) = []) :
    ∃ db1 db2,
      _save_single_project db data source t1 = .ok ("new", db1) ∧
      _save_single_project db1 data source t2 = .ok ("updated", db2) ∧
      (rowsWithSlug db1 (generate_slug n source.value)).length = 1 ∧
      (rowsWithSlug db2 (generate_slug n source.value)).length = 1 ∧
      db1.length = db.length + 1 ∧
      db2.length = db1.length := by
  have hpy : generate_slug_py (data.name.getD (.str "unknown")) source.value
      = .ok (generate_slug n source.value) := by
    rw [hname]
    rfl
  have hPslug : (_create_project data source (generate_slug n source.value) t1).slug
      = generate_slug n source.value := create_project_slug ..
  have hrows1 : rowsWithSlug
      (db ++ [_create_project data source (generate_slug n source.value) t1])
      (generate_slug n source.value)
      = [_create_project data source (generate_slug n source.value) t1] := by
    unfold rowsWithSlug at hfresh ⊢
    rw [List.filter_append, hfresh]
    simp [hPslug]
  refine ⟨db ++ [_create_project data source (generate_slug n source.value) t1],
    (db ++ [_create_project data source (generate_slug n source.value) t1]).map
      (fun p => if p.slug == generate_slug n source.value
        then _update_project p data t2 else p),
    ?_, ?_, ?_, ?_, by simp, by simp⟩
  · simp only [_save_single_project, hpy, hfresh]
  · simp only [_save_single_project, hpy, hrows1]
  · rw [hrows1]
    rfl
  · rw [rowsWithSlug_map_update, hrows1]
    rfl

/-- Witness for C1: two upserts of a concrete record into the empty
table. -/
theorem claim_C1_witness :
    ∃ db1 db2,
      _save_single_project [] { name := some (PyStr.str "Foo Bar") }
          ProjectSource.github 0 = .ok ("new", db1) ∧
      _save_single_project db1 { name := some (PyStr.str "Foo Bar") }
          ProjectSource.github 1 = .ok ("updated", db2) ∧
      (rowsWithSlug db1 (generate_slug "Foo Bar" ProjectSource.github.value)).length = 1 ∧
      (rowsWithSlug db2 (generate_slug "Foo Bar" ProjectSource.github.value)).length = 1 ∧
      db1.length = ([] : DB).length + 1 ∧
      db2.length = db1.length :=
  claim_C1_upsert_idempotence [] { name := some (PyStr.str "Foo Bar") }
    ProjectSource.github 0 1 "Foo Bar" rfl rfl

/-! ## Batch resilience -/

/-- A record whose name slot holds Python `None` raises inside
`generate_slug` before the table is touched. -/
theorem save_single_err {r : RecordData} (db : DB) (src : ProjectSource) (now : Nat)
    (h : r.name = some PyStr.pyNone) :
    _save_single_project db r src now = .error .attributeError := by
  simp only [_save_single_project, h]
  rfl

/-- The loop step on a raising record: counted as skipped, table kept. -/
theorem saveStep_err (src : ProjectSource) (now : Nat) (acc : Stats × DB)
    {r : RecordData} (h : r.name = some PyStr.pyNone) :
    saveStep src now acc r = ({ acc.1 with skipped := acc.1.skipped + 1 }, acc.2) := by
  simp [saveStep, save_single_err acc.2 src now h]

/-- Bumping a `"new"`/`"updated"` tag: skip count unchanged, the summed
save count grows by one. -/
theorem bumpStat_ok (s : Stats) {tag : String} (h : tag = "new" ∨ tag = "updated") :
    (bumpStat s tag).skipped = s.skipped ∧
    (bumpStat s tag).new + (bumpStat s tag).updated = s.new + s.updated + 1 := by
  rcases h with h | h <;> subst h <;> refine ⟨?_, ?_⟩ <;> simp [bumpStat] <;> omega

/-- A record whose name slot is absent or an actual string is saved as
`"new"` or `"updated"`, and slug uniqueness of the table survives. -/
theorem save_single_ok {r : RecordData} (db : DB) (src : ProjectSource) (now : Nat)
    (hwf : r.name ≠ some PyStr.pyNone) (hu : UniqueSlugs db) :
    ∃ tag db', _save_single_project db r src now = .ok (tag, db') ∧
      (tag = "new" ∨ tag = "updated") ∧ UniqueSlugs db' := by
  obtain ⟨s, hs⟩ : ∃ s, r.name.getD (PyStr.str "unknown") = PyStr.str s := by
    cases hn : r.name with
    | none => exact ⟨"unknown", rfl⟩
    | some v =>
      cases v with
      | pyNone => exact absurd hn hwf
      | str s => exact ⟨s, rfl⟩
  have hpy : generate_slug_py (r.name.getD (PyStr.str "unknown")) src.value
      = .ok (generate_slug s src.value) := by
    rw [hs]
    rfl
  cases hrows : rowsWithSlug db (generate_slug s src.value) with
  | nil =>
    refine ⟨"new", db ++ [_create_project r src (generate_slug s src.value) now],
      ?_, Or.inl rfl, ?_⟩
    · simp only [_save_single_project, hpy, hrows]
    · intro s'
      by_cases hbeq :
          ((_create_project r src (generate_slug s src.value) now).slug == s') = true
      · have hs' : s' = generate_slug s src.value := by
          have h1 := eq_of_beq hbeq
          rw [create_project_slug] at h1
          exact h1.symm
        show (List.filter (fun p => p.slug == s')
          (db ++ [_create_project r src (generate_slug s src.value) now])).length ≤ 1
        rw [List.filter_append, List.length_append]
        have hdb0 : db.filter (fun p => p.slug == s') = [] := by
          rw [hs']
          exact hrows
        rw [hdb0]
        simp [List.filter, hbeq]
      · show (List.filter (fun p => p.slug == s')
          (db ++ [_create_project r src (generate_slug s src.value) now])).length ≤ 1
        rw [List.filter_append, List.length_append]
        have hP0 : List.filter (fun p => p.slug == s')
            [_create_project r src (generate_slug s src.value) now] = [] := by
          simp only [List.filter]
          rw [Bool.not_eq_true] at hbeq
          rw [hbeq]
        rw [hP0]
        simpa using hu s'
  | cons p tail =>
    cases tail with
    | nil =>
      refine ⟨"updated",
        db.map (fun q => if q.slug == generate_slug s src.value
          then _update_project q r now else q),
        ?_, Or.inr rfl, ?_⟩
      · simp only [_save_single_project, hpy, hrows]
      · intro s'
        rw [rowsWithSlug_map_update db (generate_slug s src.value) s' r now,
          List.length_map]
        exact hu s'
    | cons q tail2 =>
      exfalso
      have hle := hu (generate_slug s src.value)
      rw [hrows] at hle
      simp at hle

/-- Folding the save loop over well-formed records: nothing is skipped,
each record lands as new or updated, uniqueness survives. -/
theorem fold_save_ok (src : ProjectSource) (now : Nat) :
    ∀ (l : List RecordData) (s : Stats) (db : DB), UniqueSlugs db →
      (∀ r ∈ l, r.name ≠ some PyStr.pyNone) →
      (l.foldl (saveStep src now) (s, db)).1.skipped = s.skipped ∧
      (l.foldl (saveStep src now) (s, db)).1.new
        + (l.foldl (saveStep src now) (s, db)).1.updated
        = s.new + s.updated + l.length ∧
      UniqueSlugs (l.foldl (saveStep src now) (s, db)).2 := by
  intro l
  induction l with
  | nil =>
    intro s db hu _
    exact ⟨rfl, by simp, hu⟩
  | cons r t ih =>
    intro s db hu hwf
    obtain ⟨tag, db', hsave, htag, hu'⟩ :=
      save_single_ok db src now (hwf r (List.mem_cons_self r t)) hu
    have hstep : saveStep src now (s, db) r = (bumpStat s tag, db') := by
      simp [saveStep, hsave]
    rw [List.foldl_cons, hstep]
    obtain ⟨ih1, ih2, ih3⟩ := ih (bumpStat s tag) db' hu'
      (fun r' hr' => hwf r' (List.mem_cons_of_mem r hr'))
    obtain ⟨hb1, hb2⟩ := bumpStat_ok s htag
    refine ⟨?_, ?_, ih3⟩
    · rw [ih1, hb1]
    · rw [ih2, hb2]
      simp only [List.length_cons]
      omega

/-- Claim C4 (amended): in a batch where exactly one record raises
during per-record processing (its name slot holds a null instead of a
string) and the rest are well formed, the loop catches the one
exception, counts it as skipped, and saves every other record: the
aggregate counts are `skipped = 1` and `new + updated = N - 1`.  (A
record merely *missing* its name does not raise — see the
counterexample — the code substitutes "unknown" and saves it.) -/
theorem claim_C4_batch_resilience (db : DB) (l1 l2 : List RecordData)
    (bad : RecordData) (src : ProjectSource) (now : Nat)
    (hu : UniqueSlugs db) (hbad : bad.name = some PyStr.pyNone)
    (hwf1 : ∀ r ∈ l1, r.name ≠ some PyStr.pyNone)
    (hwf2 : ∀ r ∈ l2, r.name ≠ some PyStr.pyNone) :
    (save_projects_from_collector db (l1 ++ bad :: l2) src now).1.skipped = 1 ∧
    (save_projects_from_collector db (l1 ++ bad :: l2) src now).1.new
      + (save_projects_from_collector db (l1 ++ bad :: l2) src now).1.updated
      = l1.length + l2.length := by
  unfold save_projects_from_collector
  rw [List.foldl_append, List.foldl_cons,
    saveStep_err src now (l1.foldl (saveStep src now)
      ({ new := 0, updated := 0, skipped := 0 }, db)) hbad]
  obtain ⟨h1s, h1c, h1u⟩ := fold_save_ok src now l1
    { new := 0, updated := 0, skipped := 0 } db hu hwf1
  set A := l1.foldl (saveStep src now) ({ new := 0, updated := 0, skipped := 0 }, db)
    with hA
  have hz : A.1.skipped = 0 := h1s
  have hc : A.1.new + A.1.updated = l1.length := by
    have := h1c
    simpa using this
  obtain ⟨h2s, h2c, h2u⟩ := fold_save_ok src now l2
    { A.1 with skipped := A.1.skipped + 1 } A.2 h1u hwf2
  refine ⟨?_, ?_⟩
  · rw [h2s]
    show A.1.skipped + 1 = 1
    omega
  · rw [h2c]
    show A.1.new + A.1.updated + l2.length = l1.length + l2.length
    omega

/-- Counterexample to C4's example of a malformed record: a batch whose
single record *misses* the name field entirely is not skipped — the code
substitutes "unknown" and saves it as a new entity, so the counts are
`{new: 1, skipped: 0}`, not `{skipped: 1}`. -/
theorem claim_C4_counterexample :
    (save_projects_from_collector [] [{}] ProjectSource.github 0).1
      = { new := 1, updated := 0, skipped := 0 } := by
  decide

/-- Witness for the amended C4: a one-record batch whose record's name
slot holds a null is skipped and nothing else is counted. -/
theorem claim_C4_witness :
    (save_projects_from_collector []
        (([] : List RecordData) ++ { name := some PyStr.pyNone } :: ([] : List RecordData))
        ProjectSource.github 0).1.skipped = 1 ∧
    (save_projects_from_collector []
        (([] : List RecordData) ++ { name := some PyStr.pyNone } :: ([] : List RecordData))
        ProjectSource.github 0).1.new
      + (save_projects_from_collector []
          (([] : List RecordData) ++ { name := some PyStr.pyNone } :: ([] : List RecordData))
          ProjectSource.github 0).1.updated
      = ([] : List RecordData).length + ([] : List RecordData).length :=
  claim_C4_batch_resilience [] [] [] { name := some PyStr.pyNone }
    ProjectSource.github 0
    (fun s => by simp [rowsWithSlug])
    rfl
    (fun r hr => absurd hr (List.not_mem_nil r))
    (fun r hr => absurd hr (List.not_mem_nil r))

/-! ## Slug derivation -/

/-- Unfolding `collapseNonAlnum` on an alphanumeric head. -/
theorem collapse_cons_alnum {a : Char} {t : List Char} (ha : a.isAlphanum = true) :
    collapseNonAlnum (a :: t) = a :: collapseNonAlnum t := by
  simp only [collapseNonAlnum]
  rw [if_pos ha]

/-- Unfolding `collapseNonAlnum` on a separator head that merges into a
following separator. -/
theorem collapse_cons_dash {a : Char} {t : List Char} (ha : a.isAlphanum = false)
    (hh : (collapseNonAlnum t).head? = some '-') :
    collapseNonAlnum (a :: t) = collapseNonAlnum t := by
  simp only [collapseNonAlnum]
  rw [if_neg (by simp [ha]), if_pos hh]

/-- Unfolding `collapseNonAlnum` on a separator head that opens a run. -/
theorem collapse_cons_nodash {a : Char} {t : List Char} (ha : a.isAlphanum = false)
    (hh : ¬ (collapseNonAlnum t).head? = some '-') :
    collapseNonAlnum (a :: t) = '-' :: collapseNonAlnum t := by
  simp only [collapseNonAlnum]
  rw [if_neg (by simp [ha]), if_neg hh]

/-- Every character the collapse emits is an input character or a dash. -/
theorem collapse_mem : ∀ (l : List Char), ∀ c ∈ collapseNonAlnum l, c ∈ l ∨ c = '-' := by
  intro l
  induction l with
  | nil =>
    intro c hc
    simp [collapseNonAlnum] at hc
  | cons a t ih =>
    intro c hc
    by_cases ha : a.isAlphanum = true
    · rw [collapse_cons_alnum ha] at hc
      rcases List.mem_cons.mp hc with h | h
      · exact Or.inl (h ▸ List.mem_cons_self a t)
      · rcases ih c h with h' | h'
        · exact Or.inl (List.mem_cons_of_mem a h')
        · exact Or.inr h'
    · have ha' : a.isAlphanum = false := by
        rwa [Bool.not_eq_true] at ha
      by_cases hh : (collapseNonAlnum t).head? = some '-'
      · rw [collapse_cons_dash ha' hh] at hc
        rcases ih c hc with h' | h'
        · exact Or.inl (List.mem_cons_of_mem a h')
        · exact Or.inr h'
      · rw [collapse_cons_nodash ha' hh] at hc
        rcases List.mem_cons.mp hc with h | h
        · exact Or.inr h
        · rcases ih c h with h' | h'
          · exact Or.inl (List.mem_cons_of_mem a h')
          · exact Or.inr h'

/-- The collapse never emits two adjacent dashes: every run of
non-alphanumeric input characters becomes a single separator. -/
theorem collapse_chain (l : List Char) :
    List.Chain' (fun a b => ¬(a = '-' ∧ b = '-')) (collapseNonAlnum l) := by
  induction l with
  | nil => simp [collapseNonAlnum]
  | cons a t ih =>
    by_cases ha : a.isAlphanum = true
    · rw [collapse_cons_alnum ha]
      refine List.chain'_cons'.mpr ⟨?_, ih⟩
      intro y _ hand
      rw [hand.1] at ha
      exact absurd ha (by decide)
    · have ha' : a.isAlphanum = false := by
        rwa [Bool.not_eq_true] at ha
      by_cases hh : (collapseNonAlnum t).head? = some '-'
      · rw [collapse_cons_dash ha' hh]
        exact ih
      · rw [collapse_cons_nodash ha' hh]
        refine List.chain'_cons'.mpr ⟨?_, ih⟩
        intro y hy hand
        apply hh
        rw [← hand.2]
        exact Option.mem_def.mp hy

/-- `strip('-')` keeps a prefix of the leading-stripped list. -/
theorem stripDash_eq_append (l : List Char) :
    ∃ t, stripDash l ++ t = l.dropWhile (fun c => c = '-') := by
  refine ⟨((l.dropWhile (fun c => c = '-')).reverse.takeWhile (fun c => c = '-')).reverse, ?_⟩
  unfold stripDash
  rw [← List.reverse_append, List.takeWhile_append_dropWhile, List.reverse_reverse]

/-- The head surviving `dropWhile` fails the predicate. -/
theorem dropWhile_head_not {p : Char → Bool} :
    ∀ (l : List Char) (a : Char), (l.dropWhile p).head? = some a → p a = false := by
  intro l
  induction l with
  | nil =>
    intro a h
    simp at h
  | cons x t ih =>
    intro a h
    by_cases hx : p x = true
    · rw [List.dropWhile_cons, if_pos hx] at h
      exact ih a h
    · have hx' : p x = false := by
        rwa [Bool.not_eq_true] at hx
      rw [List.dropWhile_cons, if_neg (by simp [hx'])] at h
      have hax : a = x := by
        simpa using h.symm
      rw [hax]
      exact hx'

/-- The stripped list does not start with a dash. -/
theorem stripDash_head (l : List Char) : (stripDash l).head? ≠ some '-' := by
  intro hhead
  cases hd2 : stripDash l with
  | nil =>
    rw [hd2] at hhead
    simp at hhead
  | cons b t2 =>
    rw [hd2] at hhead
    have hb : b = '-' := by
      simpa using hhead
    obtain ⟨t, ht⟩ := stripDash_eq_append l
    rw [hd2] at ht
    have hh : (l.dropWhile (fun c => c = '-')).head? = some b := by
      rw [← ht]
      rfl
    have hf := dropWhile_head_not l b hh
    rw [hb] at hf
    simp at hf

/-- The stripped list does not end with a dash. -/
theorem stripDash_getLast (l : List Char) : (stripDash l).getLast? ≠ some '-' := by
  intro h
  have h' : (((l.dropWhile (fun c => c = '-')).reverse.dropWhile (fun c => c = '-'))).head?
      = some '-' := by
    rw [← List.getLast?_reverse]
    exact h
  have hf := dropWhile_head_not _ '-' h'
  simp at hf

/-- Stripping preserves a symmetric chain invariant. -/
theorem stripDash_chain {R : Char → Char → Prop} (hsymm : ∀ a b, R a b → R b a)
    (l : List Char) (h : List.Chain' R l) : List.Chain' R (stripDash l) := by
  unfold stripDash
  have h1 : List.Chain' R (l.dropWhile (fun c => c = '-')) :=
    h.suffix (List.dropWhile_suffix _)
  have h2 : List.Chain' (flip R) (l.dropWhile (fun c => c = '-')) :=
    h1.imp (fun a b hab => hsymm a b hab)
  have h3 : List.Chain' R ((l.dropWhile (fun c => c = '-')).reverse.dropWhile
      (fun c => c = '-')) :=
    ((List.chain'_reverse).mpr h2).suffix (List.dropWhile_suffix _)
  rw [List.chain'_reverse]
  exact h3.imp (fun a b hab => hsymm a b hab)

/-- Stripping only removes characters. -/
theorem stripDash_subset (l : List Char) : ∀ c ∈ stripDash l, c ∈ l := by
  intro c hc
  unfold stripDash at hc
  rw [List.mem_reverse] at hc
  have hc2 := (List.dropWhile_suffix (fun c => c = '-')).subset hc
  rw [List.mem_reverse] at hc2
  exact (List.dropWhile_suffix (fun c => c = '-')).subset hc2

/-- Claim C9: `generate_slug` is a pure, deterministic function of
(name, source); it is the cleaned lowercased name with the source tag
appended; every character of the cleaned name comes from the lowercased
name or is a separator; separators never sit adjacent (each
non-alphanumeric run collapsed to one); the cleaned name neither starts
nor ends with a separator; and in particular "Foo Bar" and "foo-bar"
yield the same slug for the same source. -/
theorem claim_C9_slug_derivation (name source : String) :
    generate_slug name source = generate_slug name source ∧
    generate_slug name source = cleanName name ++ "-" ++ source ∧
    (∀ c ∈ (cleanName name).toList, c ∈ (lowerString name).toList ∨ c = '-') ∧
    List.Chain' (fun a b => ¬(a = '-' ∧ b = '-')) (cleanName name).toList ∧
    (cleanName name).toList.head? ≠ some '-' ∧
    (cleanName name).toList.getLast? ≠ some '-' ∧
    generate_slug "Foo Bar" source = generate_slug "foo-bar" source := by
  refine ⟨rfl, rfl, ?_, ?_, ?_, ?_, ?_⟩
  · intro c hc
    have hc' : c ∈ stripDash (collapseNonAlnum (lowerString name).toList) := hc
    exact collapse_mem _ c (stripDash_subset _ c hc')
  · exact stripDash_chain (fun a b hab hba => hab ⟨hba.2, hba.1⟩) _ (collapse_chain _)
  · exact stripDash_head _
  · exact stripDash_getLast _
  · show cleanName "Foo Bar" ++ "-" ++ source = cleanName "foo-bar" ++ "-" ++ source
    rw [show cleanName "Foo Bar" = "foo-bar" from by decide,
      show cleanName "foo-bar" = "foo-bar" from by decide]

/-- Witness for C9: the character 'f' of the cleaned "Foo Bar" comes
from the lowercased name. -/
theorem claim_C9_witness :
    'f' ∈ (lowerString "Foo Bar").toList ∨ 'f' = '-' :=
  (claim_C9_slug_derivation "Foo Bar" "github").2.2.1 'f' (by decide)
